import Mathlib

/-!
Verification of the feedback-driven context-augmentation loop of the
repository: the feedback record store (feedback_store.py), the
context builder of the feedback-aware agent and prompt augmentation
(feedback_agent.py), and the keyword-based preference policy update
(rl_preference_learning.py).

Modelling choices, all noted next to the definition they concern:
* The Cosmos DB container is modelled as an in-memory list of records
  kept newest-first; `store_feedback` assigns ids and timestamps from a
  single strictly increasing counter (standing in for `uuid.uuid4()` and
  `datetime.utcnow()`), so the SQL clause `ORDER BY c.timestamp DESC`
  coincides with the list order.
* Python floats are modelled as exact rationals (ℚ); the `"{:.1%}"`
  format specifier is modelled as exact decimal rounding of the rational
  value, half to even, which agrees with Python on every value whose
  binary representation is exact (all values exercised here).
* The LLM endpoint is out of scope (per the spec); functions that call
  it are modelled up to the text they send, or take the extraction
  outcome as an explicit parameter.
-/

/-- The Python substring test `needle in hay`. -/
def strContains (hay needle : String) : Bool :=
  decide (needle.data <:+: hay.data)

/-- The Python `str.lower()` method (ASCII-accurate, which covers every keyword the
code matches on). -/
def pyLower (s : String) : String :=
  ⟨s.data.map Char.toLower⟩

/-- The Python `"".join(parts)` idiom: concatenation of a list of strings in
order. -/
def joinParts : List String → String
  | [] => ""
  | p :: ps => p ++ joinParts ps

/-- Rounding of a rational to the nearest integer, half to even (the
rounding that Python string formatting applies to each decimal place). -/
def roundHalfEven (x : ℚ) : ℤ :=
  if x - (⌊x⌋ : ℚ) < 1 / 2 then ⌊x⌋
  else if 1 / 2 < x - (⌊x⌋ : ℚ) then ⌊x⌋ + 1
  else if ⌊x⌋ % 2 = 0 then ⌊x⌋ else ⌊x⌋ + 1

/-- The Python `"{:.1%}"` format specifier applied to a rational value:
the value times 100, rounded to one decimal place (half to even, as
Python rounds), rendered with a trailing percent sign. -/
def formatPct (q : ℚ) : String :=
  let t : ℤ := roundHalfEven (q * 1000)
  toString (t / 10) ++ "." ++ toString (t % 10) ++ "%"

/-- One stored feedback document, as built by
`FeedbackStore.store_feedback` (feedback_store.py, lines 35-44).
`id` and `timestamp` are drawn from the counter of the store (see the header
note); `context` models the string-keyed auxiliary mapping. -/
structure FeedbackRecord where
  id : Nat
  user_id : String
  query : String
  response : String
  feedback : Bool
  feedback_type : String
  timestamp : Nat
  context : List (String × String)
  deriving DecidableEq

/-- The feedback store: the Cosmos DB container contents, kept
newest-first (see the header note), plus the id/timestamp counter. -/
structure FeedbackStore where
  records : List FeedbackRecord
  nextId : Nat
  deriving DecidableEq

/-- A store with no records, counter at zero. -/
def emptyStore : FeedbackStore :=
  { records := [], nextId := 0 }

/-- `FeedbackStore.store_feedback` (feedback_store.py, lines 26-47):
builds the feedback document, persists it, and returns its id. -/
def store_feedback (s : FeedbackStore) (user_id query response : String)
    (feedback : Bool) (ctx : Option (List (String × String))) :
    FeedbackStore × Nat :=
  let item : FeedbackRecord :=
    { id := s.nextId
      user_id := user_id
      query := query
      response := response
      feedback := feedback
      feedback_type := if feedback then "helpful" else "not_helpful"
      timestamp := s.nextId
      context := ctx.getD [] }
  ({ records := item :: s.records, nextId := s.nextId + 1 }, s.nextId)

/-- `FeedbackStore.get_user_feedback_history` (feedback_store.py, lines
49-61): `SELECT * FROM c WHERE c.user_id = @user_id ORDER BY c.timestamp
DESC OFFSET 0 LIMIT @limit`.  The records list is kept newest-first, so
the descending-timestamp order is the list order. -/
def get_user_feedback_history (s : FeedbackStore) (user_id : String)
    (limit : Nat) : List FeedbackRecord :=
  (s.records.filter (fun r => r.user_id == user_id)).take limit

/-- `FeedbackStore.get_helpful_feedback` (feedback_store.py, lines
63-75): same query additionally filtered to `c.feedback = true`. -/
def get_helpful_feedback (s : FeedbackStore) (user_id : String)
    (limit : Nat) : List FeedbackRecord :=
  (s.records.filter (fun r => r.user_id == user_id && r.feedback)).take limit

/-- The summary dictionary returned by
`FeedbackStore.get_feedback_summary` (feedback_store.py, lines 82-97). -/
structure FeedbackSummary where
  total_interactions : Nat
  helpful_count : Nat
  not_helpful_count : Nat
  helpful_ratio : ℚ
  deriving DecidableEq

/-- `FeedbackStore.get_feedback_summary` (feedback_store.py, lines
77-97): reduces `get_user_feedback_history(user_id, 100)` to counts and
a ratio; all-zero summary when the history is empty. -/
def get_feedback_summary (s : FeedbackStore) (user_id : String) :
    FeedbackSummary :=
  let history := get_user_feedback_history s user_id 100
  if history.isEmpty then
    { total_interactions := 0
      helpful_count := 0
      not_helpful_count := 0
      helpful_ratio := 0 }
  else
    let helpful_count := history.countP (fun r => r.feedback)
    { total_interactions := history.length
      helpful_count := helpful_count
      not_helpful_count := history.length - helpful_count
      helpful_ratio := (helpful_count : ℚ) / (history.length : ℚ) }

/-- The two-store scenario of the spec (§8): on an empty store,
`store("u1", "Explain AI", _, helpful=False)` then
`store("u1", "What is ML?", _, helpful=True)`. -/
def demoStore : FeedbackStore :=
  (store_feedback
    (store_feedback emptyStore "u1" "Explain AI" "AI answer" false none).fst
    "u1" "What is ML?" "ML answer" true none).fst

/-- The feedback-statistics block pushed onto `context_parts` by
`FeedbackAwareAgent._build_feedback_context` (feedback_agent.py, lines
82-90), with the summary fields interpolated. -/
def statsBlock (feedback_summary : FeedbackSummary) : String :=
  "\n[FEEDBACK LEARNING]\nBased on "
    ++ toString feedback_summary.total_interactions
    ++ " past interactions:\n- User found "
    ++ toString feedback_summary.helpful_count
    ++ " responses helpful\n- User found "
    ++ toString feedback_summary.not_helpful_count
    ++ " responses unhelpful\n- Success rate: "
    ++ formatPct ( FeedbackSummary.helpful_ratio feedback_summary)
    ++ "\n\nAdjust your response style based on what worked before."

/-- One helpful example appended to `context_parts` per record
(feedback_agent.py, lines 97-101). -/
def exampleBlock (r : FeedbackRecord) : String :=
  "\nQ: " ++ r.query ++ "\nA: " ++ r.response

/-- The examples part of the context: the header plus one block per
helpful record (feedback_agent.py, lines 92-101), empty when there are
no helpful examples. -/
def examplesSection (helpful_examples : List FeedbackRecord) : String :=
  if helpful_examples.isEmpty then ""
  else
    joinParts
      ("\n[EXAMPLES OF HELPFUL RESPONSES]" :: helpful_examples.map exampleBlock)

/-- `FeedbackAwareAgent._build_feedback_context` (feedback_agent.py,
lines 74-103): collects the statistics block (when any interaction is
recorded) and the helpful examples (up to 3) into `context_parts` and
joins them; the empty string when both are absent. -/
def build_feedback_context (store : FeedbackStore) (user_id : String) :
    String :=
  let feedback_summary := get_feedback_summary store user_id
  let helpful_examples := get_helpful_feedback store user_id 3
  let context_parts : List String :=
    (if 0 < feedback_summary.total_interactions
      then [statsBlock feedback_summary] else [])
    ++ (if helpful_examples.isEmpty then []
        else
          "\n[EXAMPLES OF HELPFUL RESPONSES]"
            :: helpful_examples.map exampleBlock)
  joinParts context_parts

/-- The text `FeedbackAwareAgent.query` (feedback_agent.py, lines
110-126) forwards to the model: the user input, augmented with the
feedback context when that context is non-empty. -/
def query_augmented_input (store : FeedbackStore)
    (user_id user_input : String) : String :=
  let feedback_context := build_feedback_context store user_id
  if feedback_context = "" then user_input
  else user_input ++ "\n\n[FEEDBACK CONTEXT:" ++ feedback_context ++ "]"

/-- `UserPreferences` (rl_preference_learning.py, lines 23-29): the
learned preference policy with its field defaults. -/
structure UserPreferences where
  technical_depth : String := "medium"
  prefer_examples : Bool := true
  response_length : String := "balanced"
  feedback_count : Nat := 0
  positive_feedback : Nat := 0
  deriving DecidableEq

/-- `UserFeedback` (rl_preference_learning.py, lines 32-35): the
extracted reward signal. `rating` is a plain natural number here; the
pydantic bound 1-5 is not assumed, falsy 0 is handled where the code
tests truthiness. -/
structure UserFeedback where
  rating : Nat
  suggestion : Option String
  deriving DecidableEq

/-- The suggestion-keyword part of
`PreferenceLearningProvider._update_policy` (rl_preference_learning.py,
lines 112-121): first-match-wins containment checks over the lowercased
suggestion, adjusting `response_length` and then `technical_depth`. -/
def applySuggestion (p : UserPreferences) (suggestion : String) :
    UserPreferences :=
  let sl := pyLower suggestion
  let p1 :=
    if strContains sl "more detailed" || strContains sl "more code" then
      { p with response_length := "detailed" }
    else if strContains sl "shorter" || strContains sl "concise" then
      { p with response_length := "concise" }
    else p
  if strContains sl "advanced" then
    { p1 with technical_depth := "advanced" }
  else if strContains sl "simpler" || strContains sl "basic" then
    { p1 with technical_depth := "basic" }
  else p1

/-- `PreferenceLearningProvider._update_policy`
(rl_preference_learning.py, lines 104-121): increments
`feedback_count`, increments `positive_feedback` when the rating is at
least 4, then applies the suggestion keyword rules when a non-empty
suggestion accompanies the rating (Python tests the suggestion for
truthiness, so `None` and `""` both skip the keyword rules). -/
def update_policy (p : UserPreferences) (feedback : UserFeedback) :
    UserPreferences :=
  let p1 := { p with feedback_count := p.feedback_count + 1 }
  let p2 :=
    if 4 ≤ feedback.rating then
      { p1 with positive_feedback := p1.positive_feedback + 1 }
    else p1
  match feedback.suggestion with
  | none => p2
  | some s => if s = "" then p2 else applySuggestion p2 s

/-- The outcome of the best-effort rating extraction inside
`PreferenceLearningProvider.invoked` (rl_preference_learning.py, lines
87-102): the `await get_response(...)` call either raises (modelled as
`Except.error`), returns a response with no value (`Except.ok none`),
or returns an extracted `UserFeedback` (`Except.ok (some fb)`). -/
def ExtractionOutcome : Type := Except Unit (Option UserFeedback)

/-- `PreferenceLearningProvider.invoked` (rl_preference_learning.py,
lines 67-102) as a state transformer on the preference policy:
when the request contains user messages, extraction is attempted; the
policy is updated only when extraction succeeds with a truthy rating
(`if result.value and result.value.rating:`); any exception is swallowed
(`except Exception: pass`), so the function is total and returns the
policy unchanged on failure. -/
def invoked (p : UserPreferences) (hasUserMessages : Bool)
    (outcome : ExtractionOutcome) : UserPreferences :=
  if hasUserMessages then
    match outcome with
    | Except.error _ => p
    | Except.ok none => p
    | Except.ok (some fb) =>
        if fb.rating ≠ 0 then update_policy p fb else p
  else p

/-- Evaluation of the percent format at one half: `"{:.1%}"` renders
`0.5` as `"50.0%"`. -/
lemma formatPct_half : formatPct (1 / 2 : ℚ) = "50.0%" := by
  have h0 : ((1 / 2 : ℚ)) * 1000 = 500 := by norm_num
  have h2 : roundHalfEven (500 : ℚ) = 500 := by
    unfold roundHalfEven
    norm_num
  simp only [formatPct, h0, h2]
  rfl

/-- Evaluation of the summary on the two-record demo store. -/
lemma demo_summary :
    get_feedback_summary demoStore "u1"
      = { total_interactions := 2
          helpful_count := 1
          not_helpful_count := 1
          helpful_ratio := 1 / 2 } := by
  have h : get_feedback_summary demoStore "u1"
      = { total_interactions := 2
          helpful_count := 1
          not_helpful_count := 1
          helpful_ratio := ((1 : ℕ) : ℚ) / ((2 : ℕ) : ℚ) } := rfl
  rw [h]
  simp only [FeedbackSummary.mk.injEq]
  norm_num

/-- Evaluation of the feedback context on the two-record demo store:
the statistics block (ratio rendered as `50.0%`) followed by the single
helpful example, verbatim. -/
lemma demo_build :
    build_feedback_context demoStore "u1"
      = "\n[FEEDBACK LEARNING]\nBased on 2 past interactions:\n- User found 1 responses helpful\n- User found 1 responses unhelpful\n- Success rate: 50.0%\n\nAdjust your response style based on what worked before.\n[EXAMPLES OF HELPFUL RESPONSES]\nQ: What is ML?\nA: ML answer" := by
  have h0 : build_feedback_context demoStore "u1"
      = ("\n[FEEDBACK LEARNING]\nBased on 2 past interactions:\n- User found 1 responses helpful\n- User found 1 responses unhelpful\n- Success rate: "
            ++ formatPct (((1 : ℕ) : ℚ) / ((2 : ℕ) : ℚ))
            ++ "\n\nAdjust your response style based on what worked before.")
          ++ "\n[EXAMPLES OF HELPFUL RESPONSES]\nQ: What is ML?\nA: ML answer" := rfl
  rw [h0, (by norm_num : ((1 : ℕ) : ℚ) / ((2 : ℕ) : ℚ) = (1 / 2 : ℚ)),
    formatPct_half]
  rfl

/-- Claim C1: for every store content, `get_feedback_summary` returns a
summary whose `helpful_count` plus `not_helpful_count` equals
`total_interactions`, whose ratio equals `helpful_count` divided by
`total_interactions` when `total_interactions > 0` and `0` otherwise,
with the counts computed over `get_user_feedback_history(user_id, 100)`;
and on the two-store demo scenario, `summarize("u1")` yields
`total_interactions = 2`, `helpful_count = 1`, `not_helpful_count = 1`,
`helpful_ratio = 0.5`. -/
theorem feedback_summary_spec :
    (∀ (s : FeedbackStore) (u : String),
        (get_feedback_summary s u).helpful_count
            + (get_feedback_summary s u).not_helpful_count
          = (get_feedback_summary s u).total_interactions
      ∧ (get_feedback_summary s u).total_interactions
          = (get_user_feedback_history s u 100).length
      ∧ (get_feedback_summary s u).helpful_count
          = (get_user_feedback_history s u 100).countP (fun r => r.feedback)
      ∧ FeedbackSummary.helpful_ratio (get_feedback_summary s u)
          = (if (get_feedback_summary s u).total_interactions = 0 then 0
             else ((get_feedback_summary s u).helpful_count : ℚ)
                / ((get_feedback_summary s u).total_interactions : ℚ)))
    ∧ get_feedback_summary demoStore "u1"
        = { total_interactions := 2
            helpful_count := 1
            not_helpful_count := 1
            helpful_ratio := 1 / 2 } := by
  refine ⟨fun s u => ?_, demo_summary⟩
  by_cases he : (get_user_feedback_history s u 100).isEmpty = true
  · have hnil : get_user_feedback_history s u 100 = [] := by
      simpa using he
    simp [get_feedback_summary, he, hnil]
  · have hne : get_user_feedback_history s u 100 ≠ [] := by
      intro h0
      rw [h0] at he
      exact he rfl
    have hlen : (get_user_feedback_history s u 100).length ≠ 0 := by
      simpa [List.length_eq_zero] using hne
    have hcle :=
      List.countP_le_length (fun r => r.feedback)
        (l := get_user_feedback_history s u 100)
    simp only [get_feedback_summary, if_neg he]
    refine ⟨?_, trivial, trivial, ?_⟩
    · dsimp only
      omega
    · dsimp only [ FeedbackSummary.helpful_ratio]
      rw [if_neg hlen]

/-- Claim C2: if the rating extraction raises or yields no rating, the
preference policy is left exactly unchanged, and `invoked` (which
swallows the exception) still returns normally. -/
theorem extraction_failure_leaves_policy (p : UserPreferences)
    (hasUserMessages : Bool) (outcome : ExtractionOutcome)
    (h : outcome = Except.error () ∨ outcome = Except.ok none) :
    invoked p hasUserMessages outcome = p := by
  rcases h with h | h <;> subst h <;> cases hasUserMessages <;> rfl

/-- Witness for C2 at a concrete failing extraction. -/
theorem extraction_failure_leaves_policy_witness :
    ((Except.error () : ExtractionOutcome) = Except.error ()
        ∨ (Except.error () : ExtractionOutcome) = Except.ok none)
    ∧ invoked {} true (Except.error ()) = ({} : UserPreferences) :=
  ⟨Or.inl rfl,
    extraction_failure_leaves_policy {} true (Except.error ()) (Or.inl rfl)⟩

/-- Auxiliary: the suggestion keyword rules never touch the two
counters. -/
lemma applySuggestion_counts (q : UserPreferences) (s : String) :
    (applySuggestion q s).feedback_count = q.feedback_count
    ∧ (applySuggestion q s).positive_feedback = q.positive_feedback := by
  unfold applySuggestion
  dsimp only
  constructor <;>
    simp only [apply_ite UserPreferences.feedback_count,
      apply_ite UserPreferences.positive_feedback, ite_self]

/-- Claim C5: whenever a rating is obtained (a truthy rating reaches
`_update_policy`), `feedback_count` increments by exactly one and
`positive_feedback` increments by exactly one if and only if the rating
is at least 4. -/
theorem rating_updates_counts (p : UserPreferences) (fb : UserFeedback)
    (h : fb.rating ≠ 0) :
    (invoked p true (Except.ok (some fb))).feedback_count
        = p.feedback_count + 1
    ∧ (invoked p true (Except.ok (some fb))).positive_feedback
        = (if 4 ≤ fb.rating then p.positive_feedback + 1
           else p.positive_feedback) := by
  have h2 : invoked p true (Except.ok (some fb)) = update_policy p fb := by
    simp [invoked, h]
  rw [h2]
  unfold update_policy
  dsimp only
  cases hsg : fb.suggestion with
  | none => by_cases hr : 4 ≤ fb.rating <;> simp [hr]
  | some s =>
      by_cases hr : 4 ≤ fb.rating <;> by_cases hse : s = "" <;>
        simp [hr, hse, (applySuggestion_counts _ s).1,
          (applySuggestion_counts _ s).2]

/-- Witness for C5 at a concrete rating of 5 with no suggestion. -/
theorem rating_updates_counts_witness :
    (({ rating := 5, suggestion := none } : UserFeedback).rating ≠ 0)
    ∧ (invoked {} true
          (Except.ok (some { rating := 5, suggestion := none }))).feedback_count
        = (({} : UserPreferences)).feedback_count + 1
    ∧ (invoked {} true
          (Except.ok (some { rating := 5, suggestion := none }))).positive_feedback
        = (if 4 ≤ ({ rating := 5, suggestion := none } : UserFeedback).rating
           then (({} : UserPreferences)).positive_feedback + 1
           else (({} : UserPreferences)).positive_feedback) := by
  refine ⟨by decide, ?_, ?_⟩
  · exact (rating_updates_counts {} { rating := 5, suggestion := none }
      (by decide)).1
  · exact (rating_updates_counts {} { rating := 5, suggestion := none }
      (by decide)).2

/-- Auxiliary: resolving the suggestion branch of the policy update on a
non-empty suggestion. -/
lemma update_policy_some (p : UserPreferences) (fb : UserFeedback)
    (s : String) (hs : fb.suggestion = some s) (hne : s ≠ "") :
    update_policy p fb
      = applySuggestion
          (if 4 ≤ fb.rating
            then { p with feedback_count := p.feedback_count + 1,
                          positive_feedback := p.positive_feedback + 1 }
            else { p with feedback_count := p.feedback_count + 1 }) s := by
  unfold update_policy
  rw [hs]
  dsimp only
  rw [if_neg hne]

/-- Claim C3: the policy update applies first-match-wins containment
rules over the (lowercased, as the code matches case-insensitively)
suggestion: "more detailed"/"more code" set `response_length` to
"detailed", otherwise "shorter"/"concise" set it to "concise";
independently "advanced" sets `technical_depth` to "advanced", otherwise
"simpler"/"basic" set it to "basic"; concretely, from
`technical_depth = "medium"`, a suggestion containing "simpler" yields
"basic" and a subsequent one containing "advanced" overrides it to
"advanced". -/
theorem suggestion_keyword_rules (p : UserPreferences) (fb : UserFeedback)
    (s : String) (hs : fb.suggestion = some s) (hne : s ≠ "") :
    ((strContains (pyLower s) "more detailed" = true
        ∨ strContains (pyLower s) "more code" = true) →
      (update_policy p fb).response_length = "detailed")
    ∧ (strContains (pyLower s) "more detailed" = false →
        strContains (pyLower s) "more code" = false →
        (strContains (pyLower s) "shorter" = true
          ∨ strContains (pyLower s) "concise" = true) →
        (update_policy p fb).response_length = "concise")
    ∧ (strContains (pyLower s) "advanced" = true →
        (update_policy p fb).technical_depth = "advanced")
    ∧ (strContains (pyLower s) "advanced" = false →
        (strContains (pyLower s) "simpler" = true
          ∨ strContains (pyLower s) "basic" = true) →
        (update_policy p fb).technical_depth = "basic")
    ∧ (update_policy { technical_depth := "medium" }
          { rating := 5,
            suggestion := some "please make it simpler" }).technical_depth
        = "basic"
    ∧ (update_policy
          (update_policy { technical_depth := "medium" }
            { rating := 5, suggestion := some "please make it simpler" })
          { rating := 5,
            suggestion := some "make it more advanced" }).technical_depth
        = "advanced" := by
  rw [update_policy_some p fb s hs hne]
  refine ⟨?_, ?_, ?_, ?_, by decide, by decide⟩
  · intro hd
    unfold applySuggestion
    dsimp only
    rcases hd with hd | hd <;>
      simp [hd, apply_ite UserPreferences.response_length, ite_self]
  · intro hd1 hd2 hc
    unfold applySuggestion
    dsimp only
    rcases hc with hc | hc <;>
      simp [hd1, hd2, hc, apply_ite UserPreferences.response_length,
        ite_self]
  · intro ha
    unfold applySuggestion
    dsimp only
    simp [ha]
  · intro ha hb
    unfold applySuggestion
    dsimp only
    rcases hb with hb | hb <;>
      simp [ha, hb, apply_ite UserPreferences.technical_depth, ite_self]

/-- Witness for C3 at a concrete suggestion containing "simpler". -/
theorem suggestion_keyword_rules_witness :
    (({ rating := 5, suggestion := some "please make it simpler" }
        : UserFeedback).suggestion = some "please make it simpler")
    ∧ ("please make it simpler" ≠ "")
    ∧ (strContains (pyLower "please make it simpler") "advanced" = false →
        (strContains (pyLower "please make it simpler") "simpler" = true
          ∨ strContains (pyLower "please make it simpler") "basic" = true) →
        (update_policy { technical_depth := "medium" }
          { rating := 5,
            suggestion := some "please make it simpler" }).technical_depth
          = "basic") :=
  ⟨rfl, by decide,
    (suggestion_keyword_rules { technical_depth := "medium" }
      { rating := 5, suggestion := some "please make it simpler" }
      "please make it simpler" rfl (by decide)).2.2.2.1⟩

/-- The operations a caller can issue against the store within one
logical conversation thread (spec §5): a write via `store_feedback` or
a summary read via `get_feedback_summary`. -/
inductive StoreOp where
  | write (user_id query response : String) (feedback : Bool)
  | summarize (user_id : String)

/-- One step of the call sequence against the store: a write updates
the store and returns no summary; a summary read recomputes the summary
from the current content of the store (`get_feedback_summary` runs a
read-only query, so the store is unchanged). -/
def runOp (s : FeedbackStore) :
    StoreOp → FeedbackStore × Option FeedbackSummary
  | StoreOp.write u q r f => ((store_feedback s u q r f none).fst, none)
  | StoreOp.summarize u => (s, some (get_feedback_summary s u))

/-- Claim C9: for every fixed store content, two consecutive summary
reads for the same user with no intervening write return identical
summaries. -/
theorem summarize_idempotent (s : FeedbackStore) (u : String) :
    (runOp s (StoreOp.summarize u)).snd
      = (runOp (runOp s (StoreOp.summarize u)).fst
          (StoreOp.summarize u)).snd := rfl

/-- Claim C4: for every user with zero stored records, the summary is
all zeros (ratio `0.0`) and the feedback context is the empty string. -/
theorem empty_history_summary_and_context (s : FeedbackStore) (u : String)
    (h : s.records.filter (fun r => r.user_id == u) = []) :
    get_feedback_summary s u
      = { total_interactions := 0
          helpful_count := 0
          not_helpful_count := 0
          helpful_ratio := 0 }
    ∧ build_feedback_context s u = "" := by
  have hh : get_user_feedback_history s u 100 = [] := by
    simp [get_user_feedback_history, h]
  have hf : s.records.filter (fun r => r.user_id == u && r.feedback) = [] := by
    rw [List.filter_eq_nil_iff] at h ⊢
    intro a ha hc
    exact h a ha ((Bool.and_eq_true _ _).mp hc).1
  have hhelp : get_helpful_feedback s u 3 = [] := by
    simp [get_helpful_feedback, hf]
  constructor
  · simp [get_feedback_summary, hh]
  · simp [build_feedback_context, get_feedback_summary, hh, hhelp, joinParts]

/-- Witness for C4 at the empty store. -/
theorem empty_history_summary_and_context_witness :
    (emptyStore.records.filter (fun r => r.user_id == "u1") = [])
    ∧ get_feedback_summary emptyStore "u1"
        = { total_interactions := 0
            helpful_count := 0
            not_helpful_count := 0
            helpful_ratio := 0 }
    ∧ build_feedback_context emptyStore "u1" = "" := by
  refine ⟨rfl, ?_, ?_⟩
  · exact (empty_history_summary_and_context emptyStore "u1" rfl).1
  · exact (empty_history_summary_and_context emptyStore "u1" rfl).2

/-- Claim C6: a record written via `store_feedback` and immediately
retrieved via `get_user_feedback_history(user_id, 1)` comes back as
exactly one record with identical query, response and helpful flag
(the id and timestamp are store-assigned); the newest record is first
because the history is ordered by timestamp descending. -/
theorem store_roundtrip_recent_history (s : FeedbackStore)
    (u q resp : String) (fb : Bool)
    (ctx : Option (List (String × String))) :
    ∃ r : FeedbackRecord,
      get_user_feedback_history (store_feedback s u q resp fb ctx).fst u 1
        = [r]
      ∧ r.query = q ∧ r.response = resp ∧ r.feedback = fb := by
  refine ⟨{ id := s.nextId
            user_id := u
            query := q
            response := resp
            feedback := fb
            feedback_type := if fb then "helpful" else "not_helpful"
            timestamp := s.nextId
            context := ctx.getD [] }, ?_, rfl, rfl, rfl⟩
  unfold get_user_feedback_history store_feedback
  dsimp only
  rw [List.filter_cons_of_pos (by simp)]
  rfl

/-- The stored-record well-formedness `store_feedback` establishes at
every write: the derived `feedback_type` label mirrors the boolean
`feedback` flag. -/
def feedback_type_ok (r : FeedbackRecord) : Prop :=
  (r.feedback_type = "helpful" ↔ r.feedback = true)
  ∧ (r.feedback_type = "not_helpful" ↔ r.feedback = false)

/-- A sequence of writes applied via `store_feedback`, each operation
carrying user, query, response and helpful flag. -/
def applyStores (s : FeedbackStore)
    (ops : List (String × String × String × Bool)) : FeedbackStore :=
  ops.foldl
    (fun acc op =>
      (store_feedback acc op.1 op.2.1 op.2.2.1 op.2.2.2 none).fst)
    s

/-- Auxiliary: every write preserves the `feedback_type` invariant. -/
lemma applyStores_preserves
    (ops : List (String × String × String × Bool)) :
    ∀ s : FeedbackStore, (∀ r ∈ s.records, feedback_type_ok r) →
      ∀ r ∈ (applyStores s ops).records, feedback_type_ok r := by
  induction ops with
  | nil => exact fun s hs r hr => hs r hr
  | cons op rest ih =>
      intro s hs r hr
      refine ih _ ?_ r hr
      intro a ha
      simp only [store_feedback] at ha
      rcases List.mem_cons.mp ha with h | h
      · subst h
        cases hb : op.2.2.2 <;> simp [feedback_type_ok, hb]
      · exact hs a h

/-- Claim C10: every record the subsystem ever writes (any sequence of
`store_feedback` calls from an empty store) has
`feedback_type = "helpful"` exactly when `feedback` is true and
`feedback_type = "not_helpful"` exactly when `feedback` is false. -/
theorem feedback_type_invariant
    (ops : List (String × String × String × Bool)) :
    ∀ r ∈ (applyStores emptyStore ops).records, feedback_type_ok r :=
  applyStores_preserves ops emptyStore (by simp [emptyStore])

/-- Witness for C10 on a one-write sequence. -/
theorem feedback_type_invariant_witness :
    feedback_type_ok
      { id := 0
        user_id := "u1"
        query := "q"
        response := "r"
        feedback := true
        feedback_type := "helpful"
        timestamp := 0
        context := [] } :=
  feedback_type_invariant [("u1", "q", "r", true)] _ (by decide)

/-- Auxiliary: the statistics block has positive length (it starts with
a fixed non-empty header). -/
lemma statsBlock_length_pos (x : FeedbackSummary) :
    0 < (statsBlock x).length := by
  simp only [statsBlock, String.length_append]
  have h1 : 0 < ("\n[FEEDBACK LEARNING]\nBased on ").length := by decide
  omega

set_option maxRecDepth 8192 in
/-- Claim C7: for every user with at least one recorded interaction,
the feedback context is non-empty and consists, in order, of the
statistics block (counts and the ratio formatted as a percentage)
followed by the section of up to 3 helpful examples; on the two-record
demo store (1 of 2 helpful), the context contains the ratio rendered as
`50.0%` and the single helpful query/response pair verbatim. -/
theorem feedback_context_structure (s : FeedbackStore) (u : String)
    (h : 0 < (get_feedback_summary s u).total_interactions) :
    build_feedback_context s u
      = statsBlock (get_feedback_summary s u)
          ++ examplesSection (get_helpful_feedback s u 3)
    ∧ build_feedback_context s u ≠ ""
    ∧ strContains (build_feedback_context demoStore "u1") "50.0%" = true
    ∧ strContains (build_feedback_context demoStore "u1")
        "\nQ: What is ML?\nA: ML answer" = true := by
  have heq : build_feedback_context s u
      = statsBlock (get_feedback_summary s u)
          ++ examplesSection (get_helpful_feedback s u 3) := by
    unfold build_feedback_context examplesSection
    dsimp only
    rw [if_pos h]
    cases he : (get_helpful_feedback s u 3).isEmpty <;> simp [he, joinParts]
  refine ⟨heq, ?_, ?_, ?_⟩
  · rw [heq]
    intro h0
    have hl := congrArg String.length h0
    rw [String.length_append,
      show ("" : String).length = 0 from rfl] at hl
    have h2 := statsBlock_length_pos (get_feedback_summary s u)
    omega
  · rw [demo_build]
    decide
  · rw [demo_build]
    decide

/-- Witness for C7 on the two-record demo store. -/
theorem feedback_context_structure_witness :
    0 < (get_feedback_summary demoStore "u1").total_interactions
    ∧ build_feedback_context demoStore "u1"
        = statsBlock (get_feedback_summary demoStore "u1")
          ++ examplesSection (get_helpful_feedback demoStore "u1" 3) := by
  have h : 0 < (get_feedback_summary demoStore "u1").total_interactions := by
    rw [demo_summary]
    decide
  exact ⟨h, (feedback_context_structure demoStore "u1" h).1⟩

/-- Claim C8: the text `query` forwards to the model is the user input
unchanged when the feedback context is empty, and otherwise starts with
the verbatim user input followed by the feedback-context block. -/
theorem query_augmentation (s : FeedbackStore) (u input : String) :
    (build_feedback_context s u = "" →
      query_augmented_input s u input = input)
    ∧ (build_feedback_context s u ≠ "" →
      query_augmented_input s u input
        = input ++ "\n\n[FEEDBACK CONTEXT:"
            ++ build_feedback_context s u ++ "]") := by
  constructor <;> intro h <;> simp [query_augmented_input, h]

/-- Witness for C8: both branches at concrete stores. -/
theorem query_augmentation_witness :
    (build_feedback_context emptyStore "u1" = ""
      ∧ query_augmented_input emptyStore "u1" "hello" = "hello")
    ∧ (build_feedback_context demoStore "u1" ≠ ""
      ∧ query_augmented_input demoStore "u1" "hello"
          = "hello" ++ "\n\n[FEEDBACK CONTEXT:"
              ++ build_feedback_context demoStore "u1" ++ "]") := by
  have h1 : build_feedback_context emptyStore "u1" = "" := rfl
  have h2 : build_feedback_context demoStore "u1" ≠ "" := by
    rw [demo_build]
    decide
  exact ⟨⟨h1, (query_augmentation emptyStore "u1" "hello").1 h1⟩,
    ⟨h2, (query_augmentation demoStore "u1" "hello").2 h2⟩⟩
